import Mathlib

/-!
Shallow embedding of the PyCatan board renderer (`src/pycatan/board/_board_renderer.py`),
the building data classes (`src/pycatan/building.py`) and the roll-yield bookkeeping
(`src/pycatan/roll_yield.py`), together with theorems checking the natural-language
specification against it.

Modelling conventions:
* Python `int` is `Int`; Python floats are IEEE binary64 doubles, modelled as the subset
  of the rationals reachable by `roundDouble` (round the significand to 53 bits, nearest,
  ties to even): a float literal denotes the double nearest its decimal, int operands are
  converted to the nearest double, and every float `*` and `+` rounds its exact result to
  the nearest double.  Python `int(...)` on a float truncates toward zero (`pyIntTrunc`).
* `colored.stylize(text, fg(f) + bg(b))` is modelled as a `Cell` recording the text and the
  optional foreground/background colors; `stylize` with only `bg(c)` leaves the foreground
  `none`.  A bare (unstyled) Python string `""` is a `Cell` with both colors `none`.
* Python dicts keyed by hashable values are association lists in insertion order
  (`dictLookup` is `d[k]` / `k in d`); Python `frozenset({a, b})` edge keys are
  `Finset Coords`; Python exceptions (KeyError, IndexError from `pop(0)` or list indexing)
  are `Option`-failure.
* The mutable per-renderer color state (`player_color_map`, `_unused_player_colors`) is an
  explicit state record `RState` threaded through the functions (`RM α`).
-/

namespace PyCatan

/-- Players are opaque identities used only as dictionary keys (`.._player.Player`). -/
abbrev Player := Nat

/-- Colors are string hex codes such as "#FF0000". -/
abbrev Color := String

/-- Axial coordinates (`board/_coords.py`): a pair of integers with componentwise addition. -/
structure Coords where
  q : Int
  r : Int
deriving DecidableEq

instance : Add Coords :=
  ⟨fun a b => ⟨a.q + b.q, a.r + b.r⟩⟩

/-- Hex terrain types (`board/_hex_type.py`). -/
inductive HexType where
  | FIELDS | FOREST | PASTURE | HILLS | MOUNTAINS | DESERT
deriving DecidableEq

/-- Building types (`board/_building_type.py`). -/
inductive BuildingType where
  | ROAD | SETTLEMENT | CITY
deriving DecidableEq

/-- Resources (`.._resource.Resource`), as enumerated by `DEFAULT_RESOURCE_COLORS`. -/
inductive Resource where
  | GRAIN | LUMBER | WOOL | BRICK | ORE
deriving DecidableEq

/-- A building on a corner, i.e. a settlement or a city (`building.py`, `CornerBuilding`). -/
structure CornerBuilding where
  owner : Player
  building_type : BuildingType
  coords : Coords
deriving DecidableEq

/-- A building on an edge, i.e. a road (`building.py`, `EdgeBuilding`). -/
structure EdgeBuilding where
  owner : Player
  building_type : BuildingType
  edge_coords : Finset Coords
deriving DecidableEq

/-- Modelled from the spec: `Hex` (`board/_hex.py` is not under `src/`): terrain type and an
optional numeric production token (absent for desert). -/
structure Hex where
  hex_type : HexType
  token_number : Option Nat
deriving DecidableEq

/-- Modelled from the spec: an `Intersection` (corner) optionally holds a `CornerBuilding`
(`board/_intersection.py` is not under `src/`; the renderer reads only `.building`). -/
structure Intersection where
  building : Option CornerBuilding
deriving DecidableEq

/-- Modelled from the spec: a `Path` (edge) is addressed by the unordered pair of its two
corner coordinates and optionally holds an `EdgeBuilding` (`board/_path.py` is not under
`src/`; the renderer reads `.path_coords` and `.building`). -/
structure Path where
  path_coords : Finset Coords
  building : Option EdgeBuilding
deriving DecidableEq

/-- Modelled from the spec: a `Harbor` sits on an edge (pair of corner coordinates) and has
an optional resource (`board/_harbor.py` is not under `src/`).  The two corner coordinates
are kept as an ordered pair fixing one iteration order of the Python frozenset. -/
structure Harbor where
  path_coords : Coords × Coords
  resource : Option Resource

/-- Modelled from the spec: the `Board` collaborator (`board/_board.py` is not under `src/`)
exposes an insertion-ordered hex dict, corner and edge mappings, a harbor dict keyed like
paths, and the robber position. -/
structure Board where
  hexes : List (Coords × Hex)
  intersections : Coords → Option Intersection
  paths : Finset Coords → Option Path
  harbors : List (Finset Coords × Harbor)
  robber : Coords

/-- Modelled from the spec: `Hex.CONNECTED_CORNER_OFFSETS` (`board/_hex.py` is not under
`src/`): the six corner/neighbor offset directions, in the fixed order the spec and
`_get_hex` (lines 96-104) list them. -/
def CONNECTED_CORNER_OFFSETS : List Coords :=
  [ Coords.mk 1 (-1), Coords.mk 1 0, Coords.mk 0 1,
    Coords.mk (-1) 1, Coords.mk (-1) 0, Coords.mk 0 (-1) ]

/-- Python dict lookup `d[k]` over an insertion-ordered association list. -/
def dictLookup {α β : Type} [DecidableEq α] : List (α × β) → α → Option β
  | [], _ => none
  | (k, v) :: rest, a => if k = a then some v else dictLookup rest a

/-- A styled character cell, the model of the `colored` library's `stylize` output
(text plus optional foreground and background color). -/
structure Cell where
  text : String
  fg : Option Color
  bg : Option Color
deriving DecidableEq

/-- Model of `stylize(text, styles)`: `stylize x (some f) (some b)` is
`stylize(x, fg(f) + bg(b))` and `stylize x none (some b)` is `stylize(x, bg(b))`. -/
def stylize (text : String) (fgc : Option Color) (bgc : Option Color) : Cell :=
  Cell.mk text fgc bgc

/-- The bare Python string `""` appearing unstyled in `_get_hex_center` (line 89). -/
def emptyStr : Cell := Cell.mk "" none none

/-- `BoardRenderer.DEFAULT_PLAYER_COLORS` (line 24). -/
def DEFAULT_PLAYER_COLORS : List Color :=
  [ "#00c40d", "#ff00d9", "#0000FF", "#00FFFF" ]

/-- `BoardRenderer.DEFAULT_HEX_COLORS` (lines 26-33), a Python dict total on `HexType`. -/
def DEFAULT_HEX_COLORS : HexType → Color
  | HexType.FIELDS => "#ffea29"
  | HexType.FOREST => "#005e09"
  | HexType.PASTURE => "#52ff62"
  | HexType.HILLS => "#cc1f0c"
  | HexType.MOUNTAINS => "#7a7a7a"
  | HexType.DESERT => "#ffe5a3"

/-- `BoardRenderer.DEFAULT_RESOURCE_COLORS` (lines 35-41). -/
def DEFAULT_RESOURCE_COLORS : Resource → Color
  | Resource.GRAIN => "#ffea29"
  | Resource.LUMBER => "#005e09"
  | Resource.WOOL => "#52ff62"
  | Resource.BRICK => "#cc1f0c"
  | Resource.ORE => "#7a7a7a"

/-- `BoardRenderer.WATER_COLOR` (line 43). -/
def WATER_COLOR : Color := "#2387de"

/-- The immutable per-instance configuration set in `__init__` (lines 45-54):
`hex_color_map` and `resource_color_map`. -/
structure Config where
  hex_color_map : HexType → Color
  resource_color_map : Resource → Color

/-- The default configuration (`__init__` default arguments, lines 48-49). -/
def defaultConfig : Config :=
  Config.mk DEFAULT_HEX_COLORS DEFAULT_RESOURCE_COLORS

/-- The mutable per-renderer color state: `self.player_color_map` (a Python dict in
insertion order) and `self._unused_player_colors` (lines 51-52). -/
structure RState where
  player_color_map : List (Player × Color)
  unused_player_colors : List Color
deriving DecidableEq

/-- The state of a freshly constructed renderer whose color map is empty and whose
palette is the full default palette. -/
def fresh : RState := RState.mk [] DEFAULT_PLAYER_COLORS

/-- Stateful, fallible renderer computations: state in, optional value and state out
(`none` models an uncaught Python exception). -/
def RM (α : Type) : Type := RState → Option (α × RState)

/-- Return a pure value, leaving the color state unchanged. -/
def mpure {α : Type} (a : α) : RM α := fun s => some (a, s)

/-- An uncaught exception. -/
def mfail {α : Type} : RM α := fun _ => none

/-- Sequence two stateful computations (Python left-to-right evaluation order). -/
def mbind {α β : Type} (f : RM α) (g : α → RM β) : RM β := fun s =>
  match f s with
  | none => none
  | some (a, s') => g a s'

/-- Sequence a pure fallible lookup (dict access, list index) before a stateful
computation. -/
def obind {α β : Type} (o : Option α) (g : α → RM β) : RM β :=
  match o with
  | none => mfail
  | some a => g a

/-- `BoardRenderer._get_player_color` (lines 56-59): look the player up in
`player_color_map`, assigning `self._unused_player_colors.pop(0)` first if absent
(`pop(0)` on an empty list raises IndexError, modelled as `none`). -/
def get_player_color (player : Player) : RM Color := fun s =>
  match dictLookup s.player_color_map player with
  | some c => some (c, s)
  | none =>
    match s.unused_player_colors with
    | [] => none
    | c :: rest => some (c, RState.mk (s.player_color_map ++ [ (player, c) ]) rest)

/-- `BoardRenderer._get_path` (lines 61-68): foreground defaults to "#9c7500", is the
road owner's player color if the path is built, else black if the path's coordinate
pair is a key of `board.harbors`; all characters are styled on the desert background. -/
def get_path (cfg : Config) (b : Board) (chars : List String) (path : Path) :
    RM (List Cell) :=
  match path.building with
  | some bl =>
    mbind (get_player_color bl.owner) (fun fore =>
      mpure (chars.map (fun x => stylize x (some fore) (some (cfg.hex_color_map HexType.DESERT)))))
  | none =>
    mpure (chars.map (fun x =>
      stylize x
        (some (if path.path_coords ∈ b.harbors.map Prod.fst then "#000000" else "#9c7500"))
        (some (cfg.hex_color_map HexType.DESERT))))

/-- `BoardRenderer._get_intersection` (lines 70-80): an unbuilt corner keeps the passed
placeholder character with the unowned foreground "#9c7500"; a built corner renders "s"
for a SETTLEMENT and "c" for anything else, in the owner's player color; the background
is always the desert color. -/
def get_intersection (cfg : Config) (char : String) (i : Intersection) : RM (List Cell) :=
  match i.building with
  | none =>
    mpure [ stylize char (some "#9c7500") (some (cfg.hex_color_map HexType.DESERT)) ]
  | some bl =>
    mbind (get_player_color bl.owner) (fun fore =>
      mpure [ stylize
        (if bl.building_type = BuildingType.SETTLEMENT then "s" else "c")
        (some fore) (some (cfg.hex_color_map HexType.DESERT)) ])

/-- `BoardRenderer._get_hex_center` (lines 82-92): five cells on the hex's terrain color;
a token is rendered as its decimal text, red for 6 and 8 and black otherwise, on a white
background, preceded by a spacer cell (a terrain-colored blank for one-digit tokens, the
bare string `""` for two-digit ones). -/
def get_hex_center (cfg : Config) (h : Hex) : List Cell :=
  let space := stylize " " none (some (cfg.hex_color_map h.hex_type))
  match h.token_number with
  | none => [ space, space, space, space, space ]
  | some n =>
    let token_color := if n = 6 ∨ n = 8 then "#FF0000" else "#000000"
    [ space, if n < 10 then space else emptyStr,
      stylize (toString n) (some token_color) (some "#FFFFFF"),
      space, space ]

/-- Python `int(v)` on a float: truncation toward zero. -/
def pyIntTrunc (v : ℚ) : Int :=
  if 0 ≤ v then ⌊v⌋ else ⌈v⌉

/-- Number of binary digits, with explicit fuel so that the kernel can evaluate it. -/
def bitlenAux : Nat → Nat → Nat
  | 0, _ => 0
  | fuel + 1, n => if n = 0 then 0 else bitlenAux fuel (n / 2) + 1

/-- Number of binary digits of a natural number (0 for 0). -/
def bitlen (n : Nat) : Nat := bitlenAux n n

/-- Round a rational to an integer, to nearest with ties to even. -/
def rhe (x : ℚ) : ℤ :=
  let f := ⌊x⌋
  if x - (f : ℚ) < 1 / 2 then f
  else if (1 / 2 : ℚ) < x - (f : ℚ) then f + 1
  else if f % 2 = 0 then f else f + 1

/-- The IEEE binary64 double nearest to a rational value: round the significand to 53
bits, to nearest with ties to even.  The exponent is left unbounded, which agrees with
binary64 wherever neither overflow nor subnormals arise — in particular on everything
this renderer feeds it.  CPython's float literals, its int-to-float conversion and its
float `*` and `+` are all correctly-rounded binary64 operations, so each is modelled as
the exact operation followed by `roundDouble`. -/
def roundDouble (v : ℚ) : ℚ :=
  if v = 0 then 0
  else
    let e0 : ℤ := (bitlen v.num.natAbs : ℤ) - (bitlen v.den : ℤ)
    let ex : ℤ := if |v| < (2 : ℚ) ^ e0 then e0 - 1 else e0
    let s : ℤ := 52 - ex
    (rhe (v * (2 : ℚ) ^ s) : ℚ) * (2 : ℚ) ^ (-s)

/-- Python float multiplication (correctly rounded binary64). -/
def fmul (a b : ℚ) : ℚ := roundDouble (a * b)

/-- Python float addition (correctly rounded binary64). -/
def fadd (a b : ℚ) : ℚ := roundDouble (a + b)

/-- `BoardRenderer._get_hex_center_coords` (lines 168-169):
`(int(3 * r), -int(1.34 * q + 0.67 * r))`.  `3 * coords.r` is exact Python integer
arithmetic; the second component is IEEE binary64 float arithmetic: the literals `1.34`
and `0.67` denote the doubles nearest those decimals, the int operands are converted to
the nearest doubles, each `*` and the `+` round to the nearest double, and `int(...)`
truncates toward zero. -/
def get_hex_center_coords (c : Coords) : Int × Int :=
  (3 * c.r,
   -pyIntTrunc (fadd (fmul (roundDouble (134 / 100)) (roundDouble (c.q : ℚ)))
                     (fmul (roundDouble (67 / 100)) (roundDouble (c.r : ℚ)))))

/-- Effectful concatenation: the Python `+` between the styled-cell lists in `_get_hex`,
with left-to-right evaluation order. -/
def sappend (f g : RM (List Cell)) : RM (List Cell) :=
  mbind f (fun xs => mbind g (fun ys => mpure (xs ++ ys)))

/-- The Python frozenset `{a, b}` keying an edge. -/
def edgeKey (a b : Coords) : Finset Coords := {a, b}

/-- `BoardRenderer._get_hex` (lines 94-132): resolve the six corner intersections and six
paths around the hex (KeyError on a missing one), then build the fixed 3-row block
corner/edge/corner/edge/corner, edge/center/edge, corner/edge/corner/edge/corner. -/
def get_hex (cfg : Config) (b : Board) (coords : Coords) : RM (List (List Cell)) :=
  let c0 := Coords.mk 1 (-1) + coords
  let c1 := Coords.mk 1 0 + coords
  let c2 := Coords.mk 0 1 + coords
  let c3 := Coords.mk (-1) 1 + coords
  let c4 := Coords.mk (-1) 0 + coords
  let c5 := Coords.mk 0 (-1) + coords
  obind (b.intersections c0) (fun i0 =>
  obind (b.intersections c1) (fun i1 =>
  obind (b.intersections c2) (fun i2 =>
  obind (b.intersections c3) (fun i3 =>
  obind (b.intersections c4) (fun i4 =>
  obind (b.intersections c5) (fun i5 =>
  obind (b.paths (edgeKey c0 c1)) (fun p0 =>
  obind (b.paths (edgeKey c1 c2)) (fun p1 =>
  obind (b.paths (edgeKey c2 c3)) (fun p2 =>
  obind (b.paths (edgeKey c3 c4)) (fun p3 =>
  obind (b.paths (edgeKey c4 c5)) (fun p4 =>
  obind (b.paths (edgeKey c5 c0)) (fun p5 =>
  mbind (sappend (get_intersection cfg "." i0)
        (sappend (get_path cfg b [ "-", "-" ] p0)
        (sappend (get_intersection cfg (String.singleton (Char.ofNat 39)) i1)
        (sappend (get_path cfg b [ "-", "-" ] p1)
                 (get_intersection cfg "." i2))))) (fun row0 =>
  mbind (sappend (get_path cfg b [ "|" ] p5)
        (sappend (obind (dictLookup b.hexes coords) (fun h => mpure (get_hex_center cfg h)))
                 (get_path cfg b [ "|" ] p2))) (fun row1 =>
  mbind (sappend (get_intersection cfg (String.singleton (Char.ofNat 39)) i5)
        (sappend (get_path cfg b [ "-", "-" ] p4)
        (sappend (get_intersection cfg "." i4)
        (sappend (get_path cfg b [ "-", "-" ] p3)
                 (get_intersection cfg (String.singleton (Char.ofNat 39)) i3))))) (fun row2 =>
  mpure [ row0, row1, row2 ])))))))))))))))

/-- Python list indexing: `0 ≤ i < n` is direct, `-n ≤ i < 0` wraps from the end,
anything else raises IndexError. -/
def pyIndex (n : Nat) (i : Int) : Option Nat :=
  if 0 ≤ i ∧ i < (n : Int) then some i.toNat
  else if -(n : Int) ≤ i ∧ i < 0 then some (i + (n : Int)).toNat
  else none

/-- Python `l[i]`. -/
def pyGet {α : Type} (l : List α) (i : Int) : Option α :=
  match pyIndex l.length i with
  | none => none
  | some j => l.get? j

/-- Python `l[i] = v`. -/
def pySet {α : Type} (l : List α) (i : Int) (v : α) : Option (List α) :=
  match pyIndex l.length i with
  | none => none
  | some j => some (l.set j v)

/-- The inner loop of `_copy_into_array` (line 166): write `cells` into `row` at
successive Python indices `x + j`. -/
def copyRowCells (row : List Cell) (cells : List Cell) (x : Int) (j : Nat) :
    Option (List Cell) :=
  match cells with
  | [] => some row
  | v :: rest =>
    match pySet row (x + (j : Int)) v with
    | none => none
    | some row' => copyRowCells row' rest x (j + 1)

/-- `BoardRenderer._copy_into_array` (lines 163-166): stamp the block `to_copy` into
`buf` with its top-left cell at Python indices `(x, y)`. -/
def copy_into_array (buf : List (List Cell)) (to_copy : List (List Cell)) (x y : Int) :
    Option (List (List Cell)) :=
  match to_copy with
  | [] => some buf
  | r :: rest =>
    match pyGet buf y with
    | none => none
    | some row =>
      match copyRowCells row r x 0 with
      | none => none
      | some row' =>
        match pySet buf y row' with
        | none => none
        | some buf' => copy_into_array buf' rest x (y + 1)

/-- `BoardRenderer._get_harbor` (lines 137-148): one row of three cells `3:1` (generic)
or `2:1` (resource-colored) on the water background. -/
def get_harbor (cfg : Config) (h : Harbor) : List (List Cell) :=
  let fore := match h.resource with
    | none => "#FFFFFF"
    | some r => cfg.resource_color_map r
  [ [ stylize (match h.resource with | none => "3" | some _ => "2")
        (some fore) (some WATER_COLOR),
      stylize ":" (some fore) (some WATER_COLOR),
      stylize "1" (some fore) (some WATER_COLOR) ] ]

/-- `BoardRenderer._get_harbor_coords` (lines 150-161): intersect the neighbor-hex
candidate sets of the harbor edge's two corners, drop candidates that are real hexes,
project the first remaining (off-board) slot and nudge by `(+2, +1)`; IndexError
(`none`) if no candidate remains. -/
def get_harbor_coords (h : Harbor) (b : Board) : Option (Int × Int) :=
  let cc0 := CONNECTED_CORNER_OFFSETS.map (fun c => c + h.path_coords.1)
  let cc1 := CONNECTED_CORNER_OFFSETS.map (fun c => c + h.path_coords.2)
  let overlap := cc0.filter (fun c => decide (c ∈ cc1) && (dictLookup b.hexes c).isNone)
  match overlap with
  | [] => none
  | c :: _ =>
    let hex_coords := get_hex_center_coords c
    some (hex_coords.1 + 2, hex_coords.2 + 1)

/-- The hex-stamping loop of `get_board_as_string` (lines 188-192), iterating the keys of
`board.hexes` in dict order; the canvas center is `(24, 9)`. -/
def stampHexes (cfg : Config) (b : Board) (ks : List Coords)
    (buf : List (List Cell)) : RM (List (List Cell)) :=
  match ks with
  | [] => mpure buf
  | c :: rest =>
    mbind (get_hex cfg b c) (fun block =>
      obind (copy_into_array buf block
              (24 + (get_hex_center_coords c).1) (9 + (get_hex_center_coords c).2))
        (fun buf' => stampHexes cfg b rest buf'))

/-- The harbor-stamping loop of `get_board_as_string` (lines 193-197), iterating the
values of `board.harbors` in dict order. -/
def stampHarbors (cfg : Config) (b : Board) (hs : List Harbor)
    (buf : List (List Cell)) : Option (List (List Cell)) :=
  match hs with
  | [] => some buf
  | h :: rest =>
    match get_harbor_coords h b with
    | none => none
    | some xy =>
      match copy_into_array buf (get_harbor cfg h) (24 + xy.1) (9 + xy.2) with
      | none => none
      | some buf' => stampHarbors cfg b rest buf'

/-- The robber stamp of `get_board_as_string` (lines 199-205): a single white-on-black
"R" at the robber hex's projected center nudged by `(+4, +1)`. -/
def stampRobber (b : Board) (buf : List (List Cell)) : Option (List (List Cell)) :=
  copy_into_array buf [ [ stylize "R" (some "#FFFFFF") (some "#000000") ] ]
    (24 + (get_hex_center_coords b.robber).1 + 4)
    (9 + (get_hex_center_coords b.robber).2 + 1)

/-- Modelled from the spec: the external styling collaborator's serialization of one
styled cell to terminal text (the `colored` library is out of scope; any fixed injective
rendering stands in for its ANSI escape sequences). -/
def renderCell (c : Cell) : String :=
  (match c.fg with | none => "" | some f => "<fg:" ++ f ++ ">")
    ++ (match c.bg with | none => "" | some b => "<bg:" ++ b ++ ">")
    ++ c.text

/-- The serialization of line 207: rows joined by newline, cells concatenated in a row. -/
def bufToString (buf : List (List Cell)) : String :=
  String.intercalate "\n" (buf.map (fun row => String.join (row.map renderCell)))

/-- The initial blank cell of the canvas (line 182). -/
def waterCell : Cell := stylize " " none (some WATER_COLOR)

/-- `BoardRenderer.get_board_as_string` (lines 171-207): allocate the fixed 20 by 55
water-colored canvas, stamp every hex block, then every harbor, then the robber marker,
and serialize. -/
def get_board_as_string (cfg : Config) (b : Board) : RM String :=
  let buf0 := List.replicate 20 (List.replicate 55 waterCell)
  mbind (stampHexes cfg b (b.hexes.map Prod.fst) buf0) (fun buf1 =>
    obind (stampHarbors cfg b (b.harbors.map Prod.snd) buf1) (fun buf2 =>
      obind (stampRobber b buf2) (fun buf3 =>
        mpure (bufToString buf3))))

/-- A sequence of `_get_player_color` calls on one renderer instance, returning the
colors in order. -/
def runLookups : List Player → RM (List Color)
  | [] => mpure []
  | p :: ps => mbind (get_player_color p) (fun c =>
      mbind (runLookups ps) (fun cs => mpure (c :: cs)))

/-- The projection exactly as the spec sentence states it: `x = 3 * r`,
`y = -round(1.34 * q + 0.67 * r)` with rounding to the nearest integer. -/
def hexCenterOffsetSpec (c : Coords) : Int × Int :=
  (3 * c.r, -round ((134 / 100 : ℚ) * (c.q : ℚ) + (67 / 100 : ℚ) * (c.r : ℚ)))

/-! ### Python object heap for `__init__`'s reference semantics

`__init__` (lines 45-54) binds `self.player_color_map` to its `player_color_map`
argument and `self._unused_player_colors` to the class attribute
`BoardRenderer.DEFAULT_PLAYER_COLORS` without copying either.  The default value of
`player_color_map` is the dict literal `{}` evaluated once when the function is
defined.  To state what two renderer instances observe, dict and list objects live in
an explicit heap and renderer objects hold references into it. -/

/-- A heap of Python dict objects and list objects, addressed by position. -/
structure PyHeap where
  dicts : List (List (Player × Color))
  lists : List (List Color)
deriving DecidableEq

/-- A `BoardRenderer` object: references to its `player_color_map` dict and its
`_unused_player_colors` list. -/
structure RendererObj where
  player_color_map_ref : Nat
  unused_player_colors_ref : Nat
deriving DecidableEq

/-- The heap after the module is loaded: dict object 0 is the default-argument dict `{}`
of `__init__` (line 47, created once at function definition time); list object 0 is the
class attribute `DEFAULT_PLAYER_COLORS` (line 24). -/
def moduleHeap : PyHeap := PyHeap.mk [ [] ] [ DEFAULT_PLAYER_COLORS ]

/-- `BoardRenderer()` with all-default arguments (lines 45-54): only reference
assignments happen, no dict or list is allocated, so every default-constructed instance
references dict object 0 and list object 0. -/
def mkRendererDefault (h : PyHeap) : RendererObj × PyHeap :=
  (RendererObj.mk 0 0, h)

/-- Dereference a dict object. -/
def heapDict (h : PyHeap) (r : Nat) : List (Player × Color) :=
  (h.dicts.get? r).getD []

/-- Dereference a list object. -/
def heapList (h : PyHeap) (r : Nat) : List Color :=
  (h.lists.get? r).getD []

/-- `BoardRenderer._get_player_color` (lines 56-59) acting on a renderer object through
the heap: reads and writes go through the instance's references. -/
def get_player_color_obj (ro : RendererObj) (p : Player) (h : PyHeap) :
    Option (Color × PyHeap) :=
  let m := heapDict h ro.player_color_map_ref
  match dictLookup m p with
  | some c => some (c, h)
  | none =>
    match heapList h ro.unused_player_colors_ref with
    | [] => none
    | c :: rest =>
      some (c, PyHeap.mk (h.dicts.set ro.player_color_map_ref (m ++ [ (p, c) ]))
                         (h.lists.set ro.unused_player_colors_ref rest))

/-! ### `roll_yield.py` -/

/-- `RollYieldSource.__init__` (`roll_yield.py` lines 16-20) stores only `building` and
`hex`; the `resource` and `amount` parameters are not stored on the instance. -/
structure RollYieldSource where
  building : CornerBuilding
  hex : Hex
deriving DecidableEq

/-- The constructor `RollYieldSource(resource, amount, building, hex)`, with its full
Python parameter list. -/
def RollYieldSource.init (resource : Resource) (amount : Int)
    (building : CornerBuilding) (hex : Hex) : RollYieldSource :=
  RollYieldSource.mk building hex

/-- An element of the Python set `RollYield.all_yields`: either the class object
`RollYieldSource` itself or an instance of it. -/
inductive YieldElem where
  | classObj : YieldElem
  | inst : RollYieldSource → YieldElem
deriving DecidableEq

/-- `RollYield` (`roll_yield.py` lines 23-40): `total_yield` maps every resource to an
amount (all zero initially), `all_yields` is a Python set. -/
structure RollYield where
  total_yield : Resource → Int
  all_yields : Finset YieldElem

/-- `RollYield.__init__` (lines 32-34). -/
def RollYield.init : RollYield :=
  RollYield.mk (fun _ => 0) ∅

/-- `RollYield.add_yield` (lines 36-40): `self.total_yield[resource] += amount;
self.all_yields.add(RollYieldSource)` — the argument of `add` is the class object
`RollYieldSource`, not the `source` parameter. -/
def RollYield.add_yield (ry : RollYield) (resource : Resource) (amount : Int)
    (source : RollYieldSource) : RollYield :=
  RollYield.mk
    (fun r => if r = resource then ry.total_yield r + amount else ry.total_yield r)
    (insert YieldElem.classObj ry.all_yields)

/-! ### A concrete demonstration board

One FIELDS hex at the origin with token 8, a settlement owned by player 0 on its
corner `(1, -1)`, a grain harbor on the edge between corners `(1, -1)` and `(1, 0)`,
no roads, robber on the hex. -/

/-- The six corner coordinates of the hex at the origin. -/
def demoCorners : List Coords := CONNECTED_CORNER_OFFSETS

/-- The settlement of the demonstration board. -/
def demoSettlement : CornerBuilding :=
  CornerBuilding.mk 0 BuildingType.SETTLEMENT (Coords.mk 1 (-1))

/-- The demonstration board's intersection mapping. -/
def demoIntersections (c : Coords) : Option Intersection :=
  if c = Coords.mk 1 (-1) then some (Intersection.mk (some demoSettlement))
  else if c ∈ demoCorners then some (Intersection.mk none)
  else none

/-- The six edge keys of the hex at the origin. -/
def demoEdges : List (Finset Coords) :=
  [ edgeKey (Coords.mk 1 (-1)) (Coords.mk 1 0),
    edgeKey (Coords.mk 1 0) (Coords.mk 0 1),
    edgeKey (Coords.mk 0 1) (Coords.mk (-1) 1),
    edgeKey (Coords.mk (-1) 1) (Coords.mk (-1) 0),
    edgeKey (Coords.mk (-1) 0) (Coords.mk 0 (-1)),
    edgeKey (Coords.mk 0 (-1)) (Coords.mk 1 (-1)) ]

/-- The demonstration board's path mapping (all paths unbuilt). -/
def demoPaths (e : Finset Coords) : Option Path :=
  if e ∈ demoEdges then some (Path.mk e none) else none

/-- The demonstration board's harbor. -/
def demoHarbor : Harbor :=
  Harbor.mk (Coords.mk 1 (-1), Coords.mk 1 0) (some Resource.GRAIN)

/-- The demonstration board. -/
def demoBoard : Board :=
  Board.mk
    [ (Coords.mk 0 0, Hex.mk HexType.FIELDS (some 8)) ]
    demoIntersections
    demoPaths
    [ (edgeKey (Coords.mk 1 (-1)) (Coords.mk 1 0), demoHarbor) ]
    (Coords.mk 0 0)

/-- The string produced by rendering the demonstration board from the fresh state. -/
def demoOut : String :=
  match get_board_as_string defaultConfig demoBoard fresh with
  | some (o, _) => o
  | none => ""

/-- The color state after rendering the demonstration board once: player 0 received the
first palette color. -/
def demoS1 : RState :=
  RState.mk [ (0, "#00c40d") ] [ "#ff00d9", "#0000FF", "#00FFFF" ]

/-! ### Properties of the color state -/

/-- State extension: every player-to-color binding of `s` is still present in `t`.
Bindings are never overwritten, only added, so this is the reachability order of the
renderer's color state. -/
def RExt (s t : RState) : Prop :=
  ∀ p c, dictLookup s.player_color_map p = some c →
    dictLookup t.player_color_map p = some c

/-- A stateful computation is stable when, once it has succeeded, it returns the same
value without touching the state from any extension of its post-state.  All of the
renderer's computations are stable, which is what makes rendering repeatable. -/
def Stable {α : Type} (f : RM α) : Prop :=
  ∀ s a s', f s = some (a, s') →
    RExt s s' ∧ ∀ t, RExt s' t → f t = some (a, t)

/-- Invariant of the color state: the assigned colors followed by the unused palette
have no duplicates, and no player is bound twice. -/
def ColorInv (s : RState) : Prop :=
  ((s.player_color_map.map Prod.snd) ++ s.unused_player_colors).Nodup ∧
    (s.player_color_map.map Prod.fst).Nodup

/-- A concrete roll-yield source instance for witnesses. -/
def demoYieldSource : RollYieldSource :=
  RollYieldSource.mk (CornerBuilding.mk 0 BuildingType.SETTLEMENT (Coords.mk 0 0))
    (Hex.mk HexType.FIELDS (some 8))

/-- A fresh `RollYield` after one `add_yield` of 2 GRAIN from `demoYieldSource`. -/
def demoRollYield : RollYield :=
  RollYield.init.add_yield Resource.GRAIN 2 demoYieldSource

/-! ## Association-list (Python dict) lemmas -/

theorem dictLookup_append_of_some {α β : Type} [DecidableEq α] {m l : List (α × β)}
    {a : α} {b : β} (h : dictLookup m a = some b) : dictLookup (m ++ l) a = some b := by
  induction m with
  | nil => simp [dictLookup] at h
  | cons kv rest ih =>
    obtain ⟨k, v⟩ := kv
    simp only [dictLookup, List.cons_append] at h ⊢
    by_cases hk : k = a
    · rwa [if_pos hk] at h ⊢
    · rw [if_neg hk] at h ⊢
      exact ih h

theorem dictLookup_append_self {α β : Type} [DecidableEq α] {m : List (α × β)}
    {a : α} (b : β) (h : dictLookup m a = none) :
    dictLookup (m ++ [ (a, b) ]) a = some b := by
  induction m with
  | nil => simp [dictLookup]
  | cons kv rest ih =>
    obtain ⟨k, v⟩ := kv
    simp only [dictLookup, List.cons_append] at h ⊢
    by_cases hk : k = a
    · rw [if_pos hk] at h
      exact absurd h (by simp)
    · rw [if_neg hk] at h ⊢
      exact ih h

theorem dictLookup_mem {α β : Type} [DecidableEq α] {m : List (α × β)}
    {a : α} {b : β} (h : dictLookup m a = some b) : (a, b) ∈ m := by
  induction m with
  | nil => simp [dictLookup] at h
  | cons kv rest ih =>
    obtain ⟨k, v⟩ := kv
    simp only [dictLookup] at h
    by_cases hk : k = a
    · rw [if_pos hk] at h
      obtain rfl : v = b := by simpa using h
      subst hk
      exact List.mem_cons_self _ _
    · rw [if_neg hk] at h
      exact List.mem_cons_of_mem _ (ih h)

theorem dictLookup_none_not_key {α β : Type} [DecidableEq α] {m : List (α × β)}
    {a : α} (h : dictLookup m a = none) : a ∉ m.map Prod.fst := by
  induction m with
  | nil => simp
  | cons kv rest ih =>
    obtain ⟨k, v⟩ := kv
    simp only [dictLookup] at h
    by_cases hk : k = a
    · rw [if_pos hk] at h
      exact absurd h (by simp)
    · rw [if_neg hk] at h
      simp only [List.map_cons, List.mem_cons]
      rintro (rfl | hmem)
      · exact hk rfl
      · exact ih h hmem

theorem mem_snd_inj {α β : Type} {m : List (α × β)} (h : (m.map Prod.snd).Nodup)
    {a a' : α} {b : β} (h1 : (a, b) ∈ m) (h2 : (a', b) ∈ m) : a = a' :=
  congrArg Prod.fst (List.inj_on_of_nodup_map h h1 h2 rfl)

/-! ## The state-extension order and stability -/

theorem rext_refl (s : RState) : RExt s s := fun _ _ h => h

theorem rext_trans {s t u : RState} (h1 : RExt s t) (h2 : RExt t u) : RExt s u :=
  fun p c h => h2 p c (h1 p c h)

/-- Inversion for `get_player_color`: either the player was already assigned (state
unchanged) or it received the head of the palette. -/
theorem gpc_cases {p : Player} {s : RState} {c : Color} {s' : RState}
    (h : get_player_color p s = some (c, s')) :
    (dictLookup s.player_color_map p = some c ∧ s' = s) ∨
    (dictLookup s.player_color_map p = none ∧
      ∃ rest, s.unused_player_colors = c :: rest ∧
        s' = RState.mk (s.player_color_map ++ [ (p, c) ]) rest) := by
  unfold get_player_color at h
  cases hd : dictLookup s.player_color_map p with
  | some c0 =>
    rw [hd] at h
    obtain ⟨rfl, rfl⟩ : c0 = c ∧ s = s' := by simpa using h
    exact Or.inl ⟨rfl, rfl⟩
  | none =>
    rw [hd] at h
    cases hu : s.unused_player_colors with
    | nil => rw [hu] at h; simp at h
    | cons c0 rest =>
      rw [hu] at h
      obtain ⟨rfl, rfl⟩ : c0 = c ∧ RState.mk (s.player_color_map ++ [ (p, c0) ]) rest = s' := by
        simpa using h
      exact Or.inr ⟨rfl, rest, rfl, rfl⟩

theorem gpc_lookup_post {p : Player} {s : RState} {c : Color} {s' : RState}
    (h : get_player_color p s = some (c, s')) :
    dictLookup s'.player_color_map p = some c := by
  rcases gpc_cases h with ⟨hd, rfl⟩ | ⟨hd, rest, hu, rfl⟩
  · exact hd
  · exact dictLookup_append_self c hd

theorem gpc_ext {p : Player} {s : RState} {c : Color} {s' : RState}
    (h : get_player_color p s = some (c, s')) : RExt s s' := by
  rcases gpc_cases h with ⟨hd, rfl⟩ | ⟨hd, rest, hu, rfl⟩
  · exact rext_refl _
  · exact fun q d hq => dictLookup_append_of_some hq

theorem gpc_future {p : Player} {s : RState} {c : Color} {s' : RState}
    (h : get_player_color p s = some (c, s')) {t : RState} (ht : RExt s' t) :
    get_player_color p t = some (c, t) := by
  have hl : dictLookup t.player_color_map p = some c := ht p c (gpc_lookup_post h)
  unfold get_player_color
  rw [hl]

theorem stable_get_player_color (p : Player) : Stable (get_player_color p) :=
  fun _ _ _ h => ⟨gpc_ext h, fun _ ht => gpc_future h ht⟩

theorem stable_mpure {α : Type} (a : α) : Stable (mpure a) := by
  intro s a' s' h
  obtain ⟨rfl, rfl⟩ : a = a' ∧ s = s' := by simpa [mpure] using h
  exact ⟨rext_refl s, fun t _ => rfl⟩

theorem stable_mfail {α : Type} : Stable (mfail : RM α) := by
  intro s a s' h
  simp [mfail] at h

theorem stable_mbind {α β : Type} {f : RM α} {g : α → RM β}
    (hf : Stable f) (hg : ∀ a, Stable (g a)) : Stable (mbind f g) := by
  intro s b s2 h
  unfold mbind at h
  cases hfs : f s with
  | none => rw [hfs] at h; simp at h
  | some as1 =>
    rw [hfs] at h
    obtain ⟨a, s1⟩ := as1
    obtain ⟨hext1, hfut1⟩ := hf s a s1 hfs
    obtain ⟨hext2, hfut2⟩ := hg a s1 b s2 h
    refine ⟨rext_trans hext1 hext2, fun t ht => ?_⟩
    unfold mbind
    rw [hfut1 t (rext_trans hext2 ht)]
    exact hfut2 t ht

theorem stable_obind {α β : Type} {o : Option α} {g : α → RM β}
    (hg : ∀ a, Stable (g a)) : Stable (obind o g) := by
  cases o with
  | none => exact stable_mfail
  | some a => exact hg a

theorem stable_sappend {f g : RM (List Cell)} (hf : Stable f) (hg : Stable g) :
    Stable (sappend f g) :=
  stable_mbind hf (fun xs => stable_mbind hg (fun ys => stable_mpure (xs ++ ys)))

theorem stable_get_path (cfg : Config) (b : Board) (chars : List String) (path : Path) :
    Stable (get_path cfg b chars path) := by
  unfold get_path
  cases path.building with
  | some bl => exact stable_mbind (stable_get_player_color bl.owner) (fun fore => stable_mpure _)
  | none => exact stable_mpure _

theorem stable_get_intersection (cfg : Config) (char : String) (i : Intersection) :
    Stable (get_intersection cfg char i) := by
  unfold get_intersection
  cases i.building with
  | none => exact stable_mpure _
  | some bl => exact stable_mbind (stable_get_player_color bl.owner) (fun fore => stable_mpure _)

theorem stable_get_hex (cfg : Config) (b : Board) (coords : Coords) :
    Stable (get_hex cfg b coords) := by
  unfold get_hex
  exact
    stable_obind fun i0 => stable_obind fun i1 => stable_obind fun i2 =>
    stable_obind fun i3 => stable_obind fun i4 => stable_obind fun i5 =>
    stable_obind fun p0 => stable_obind fun p1 => stable_obind fun p2 =>
    stable_obind fun p3 => stable_obind fun p4 => stable_obind fun p5 =>
    stable_mbind
      (stable_sappend (stable_get_intersection _ _ _)
        (stable_sappend (stable_get_path _ _ _ _)
          (stable_sappend (stable_get_intersection _ _ _)
            (stable_sappend (stable_get_path _ _ _ _) (stable_get_intersection _ _ _)))))
      fun row0 =>
    stable_mbind
      (stable_sappend (stable_get_path _ _ _ _)
        (stable_sappend (stable_obind fun h => stable_mpure _) (stable_get_path _ _ _ _)))
      fun row1 =>
    stable_mbind
      (stable_sappend (stable_get_intersection _ _ _)
        (stable_sappend (stable_get_path _ _ _ _)
          (stable_sappend (stable_get_intersection _ _ _)
            (stable_sappend (stable_get_path _ _ _ _) (stable_get_intersection _ _ _)))))
      fun row2 => stable_mpure _

theorem stable_stampHexes (cfg : Config) (b : Board) (ks : List Coords) :
    ∀ buf, Stable (stampHexes cfg b ks buf) := by
  induction ks with
  | nil => exact fun buf => stable_mpure _
  | cons c rest ih =>
    exact fun buf =>
      stable_mbind (stable_get_hex cfg b c) (fun block => stable_obind (fun buf' => ih buf'))

theorem stable_get_board_as_string (cfg : Config) (b : Board) :
    Stable (get_board_as_string cfg b) :=
  stable_mbind (stable_stampHexes cfg b _ _)
    (fun buf1 => stable_obind (fun buf2 => stable_obind (fun buf3 => stable_mpure _)))

/-- C8: rendering is deterministic.  If a call of `get_board_as_string` on a renderer in
color state `s0` returned the string `o` leaving the color state `s1`, then a second call
on the same renderer (now in state `s1`) with the same, unchanged board returns the
byte-identical string `o` and leaves the state unchanged. -/
theorem render_deterministic (cfg : Config) (b : Board) (s0 : RState) (o : String)
    (s1 : RState) (h : get_board_as_string cfg b s0 = some (o, s1)) :
    get_board_as_string cfg b s1 = some (o, s1) :=
  (stable_get_board_as_string cfg b s0 o s1 h).2 s1 (rext_refl s1)

set_option maxRecDepth 100000 in
/-- Witness for C8: rendering the concrete demonstration board from the fresh state
produces `demoOut` and assigns player 0 the first palette color; the theorem then gives
that the second call returns the identical string. -/
theorem render_deterministic_witness :
    get_board_as_string defaultConfig demoBoard demoS1 = some (demoOut, demoS1) :=
  render_deterministic defaultConfig demoBoard fresh demoOut demoS1 (by with_unfolding_all rfl)

/-! ## Sequences of color lookups -/

theorem runLookups_nil_inv {s : RState} {v : List Color} {s' : RState}
    (h : runLookups [] s = some (v, s')) : v = [] ∧ s' = s := by
  simpa [runLookups, mpure, eq_comm] using h

theorem runLookups_cons_inv {p : Player} {ps : List Player} {s : RState}
    {v : List Color} {s' : RState} (h : runLookups (p :: ps) s = some (v, s')) :
    ∃ c s1 cs, get_player_color p s = some (c, s1) ∧
      runLookups ps s1 = some (cs, s') ∧ v = c :: cs := by
  simp only [runLookups, mbind, mpure] at h
  cases hg : get_player_color p s with
  | none => rw [hg] at h; simp at h
  | some cs1 =>
    obtain ⟨c, s1⟩ := cs1
    rw [hg] at h
    dsimp only at h
    cases hr : runLookups ps s1 with
    | none => rw [hr] at h; simp at h
    | some css2 =>
      obtain ⟨cs, s2⟩ := css2
      rw [hr] at h
      dsimp only at h
      obtain ⟨rfl, rfl⟩ : c :: cs = v ∧ s2 = s' := by simpa using h
      exact ⟨c, s1, cs, rfl, hr, rfl⟩

theorem runLookups_ext {ps : List Player} {s : RState} {cs : List Color} {s' : RState}
    (h : runLookups ps s = some (cs, s')) : RExt s s' := by
  induction ps generalizing s cs with
  | nil =>
    obtain ⟨rfl, rfl⟩ := runLookups_nil_inv h
    exact rext_refl _
  | cons p ps ih =>
    obtain ⟨c, s1, cs1, hg, hr, rfl⟩ := runLookups_cons_inv h
    exact rext_trans (gpc_ext hg) (ih hr)

theorem runLookups_zip_lookup {ps : List Player} {s : RState} {cs : List Color}
    {s' : RState} (h : runLookups ps s = some (cs, s')) :
    ∀ pc ∈ ps.zip cs, dictLookup s'.player_color_map pc.1 = some pc.2 := by
  induction ps generalizing s cs with
  | nil =>
    intro pc hpc
    obtain ⟨rfl, rfl⟩ := runLookups_nil_inv h
    simp at hpc
  | cons p ps ih =>
    obtain ⟨c, s1, cs1, hg, hr, rfl⟩ := runLookups_cons_inv h
    intro pc hpc
    rw [List.zip_cons_cons] at hpc
    rcases List.mem_cons.mp hpc with rfl | hmem
    · exact (runLookups_ext hr) p c (gpc_lookup_post hg)
    · exact ih hr pc hmem

theorem gpc_inv {p : Player} {s : RState} {c : Color} {s' : RState}
    (hs : ColorInv s) (h : get_player_color p s = some (c, s')) : ColorInv s' := by
  rcases gpc_cases h with ⟨hd, rfl⟩ | ⟨hd, rest, hu, rfl⟩
  · exact hs
  · obtain ⟨h1, h2⟩ := hs
    constructor
    · have heq : ((s.player_color_map ++ [ (p, c) ]).map Prod.snd) ++ rest =
          (s.player_color_map.map Prod.snd) ++ s.unused_player_colors := by
        rw [hu]
        simp [List.map_append, List.append_assoc]
      exact heq ▸ h1
    · have hp : p ∉ s.player_color_map.map Prod.fst := dictLookup_none_not_key hd
      have : ((s.player_color_map ++ [ (p, c) ]).map Prod.fst) =
          s.player_color_map.map Prod.fst ++ [ p ] := by
        simp [List.map_append]
      rw [this]
      exact h2.append (List.nodup_singleton p) (List.disjoint_singleton.mpr hp)

theorem runLookups_inv {ps : List Player} {s : RState} {cs : List Color} {s' : RState}
    (hs : ColorInv s) (h : runLookups ps s = some (cs, s')) : ColorInv s' := by
  induction ps generalizing s cs with
  | nil =>
    obtain ⟨rfl, rfl⟩ := runLookups_nil_inv h
    exact hs
  | cons p ps ih =>
    obtain ⟨c, s1, cs1, hg, hr, rfl⟩ := runLookups_cons_inv h
    exact ih (gpc_inv hs hg) hr

theorem fresh_colorInv : ColorInv fresh := by
  constructor
  · decide
  · decide

/-- C3: on a freshly constructed renderer (empty color map, full default palette), any
sequence of `_get_player_color` lookups gives two lookups the same color exactly when
they are for the same player: distinct players receive distinct colors, and repeated
lookups for one player keep returning its first color. -/
theorem player_colors_injective_and_stable (ps : List Player) (cs : List Color)
    (s' : RState) (h : runLookups ps fresh = some (cs, s')) :
    ∀ p c p' c', (p, c) ∈ ps.zip cs → (p', c') ∈ ps.zip cs → (p = p' ↔ c = c') := by
  intro p c p' c' h1 h2
  have l1 := runLookups_zip_lookup h (p, c) h1
  have l2 := runLookups_zip_lookup h (p', c') h2
  have hinv : ColorInv s' := runLookups_inv fresh_colorInv h
  constructor
  · rintro rfl
    exact Option.some.inj (l1.symm.trans l2)
  · rintro rfl
    exact mem_snd_inj hinv.1.of_append_left (dictLookup_mem l1) (dictLookup_mem l2)

/-- Witness for C3: looking up players 0, 1, 0 on a fresh renderer returns the first two
palette colors and repeats player 0's color; the theorem then separates the two players'
colors. -/
theorem player_colors_injective_and_stable_witness :
    runLookups [ 0, 1, 0 ] fresh =
      some ([ "#00c40d", "#ff00d9", "#00c40d" ],
        RState.mk [ (0, "#00c40d"), (1, "#ff00d9") ] [ "#0000FF", "#00FFFF" ]) ∧
    ("#00c40d" : Color) ≠ "#ff00d9" := by
  have hrun : runLookups [ 0, 1, 0 ] fresh =
      some ([ "#00c40d", "#ff00d9", "#00c40d" ],
        RState.mk [ (0, "#00c40d"), (1, "#ff00d9") ] [ "#0000FF", "#00FFFF" ]) := by decide
  refine ⟨hrun, fun hc => ?_⟩
  have h01 : (0 : Player) = 1 :=
    (player_colors_injective_and_stable _ _ _ hrun 0 "#00c40d" 1 "#ff00d9"
      (by decide) (by decide)).mpr hc
  exact absurd h01 (by decide)

/-- C4: on a freshly constructed renderer, four distinct players receive the four palette
colors in order, and a request for a fifth distinct player fails with the IndexError of
popping the now-empty palette (`none`) rather than returning a color. -/
theorem fifth_player_exhausts_palette (p1 p2 p3 p4 p5 : Player)
    (h12 : p1 ≠ p2) (h13 : p1 ≠ p3) (h23 : p2 ≠ p3)
    (h14 : p1 ≠ p4) (h24 : p2 ≠ p4) (h34 : p3 ≠ p4)
    (h15 : p1 ≠ p5) (h25 : p2 ≠ p5) (h35 : p3 ≠ p5) (h45 : p4 ≠ p5) :
    runLookups [ p1, p2, p3, p4 ] fresh =
      some ([ "#00c40d", "#ff00d9", "#0000FF", "#00FFFF" ],
        RState.mk
          [ (p1, "#00c40d"), (p2, "#ff00d9"), (p3, "#0000FF"), (p4, "#00FFFF") ] []) ∧
    get_player_color p5
      (RState.mk
        [ (p1, "#00c40d"), (p2, "#ff00d9"), (p3, "#0000FF"), (p4, "#00FFFF") ] []) =
      none := by
  constructor
  · simp [runLookups, mbind, mpure, get_player_color, dictLookup, fresh,
      DEFAULT_PLAYER_COLORS, h12, h13, h23, h14, h24, h34]
  · simp [get_player_color, dictLookup, h15, h25, h35, h45]

/-- Witness for C4: players 0, 1, 2, 3 succeed and exhaust the palette; player 4 fails. -/
theorem fifth_player_exhausts_palette_witness :
    runLookups [ 0, 1, 2, 3 ] fresh =
      some ([ "#00c40d", "#ff00d9", "#0000FF", "#00FFFF" ],
        RState.mk
          [ (0, "#00c40d"), (1, "#ff00d9"), (2, "#0000FF"), (3, "#00FFFF") ] []) ∧
    get_player_color 4
      (RState.mk
        [ (0, "#00c40d"), (1, "#ff00d9"), (2, "#0000FF"), (3, "#00FFFF") ] []) = none :=
  fifth_player_exhausts_palette 0 1 2 3 4
    (by decide) (by decide) (by decide) (by decide) (by decide)
    (by decide) (by decide) (by decide) (by decide) (by decide)

/-! ## The hex-center projection (C1) -/

set_option maxRecDepth 100000 in
/-- The double arithmetic of `_get_hex_center_coords` departs from exact arithmetic far
outside the canvas: at `(q, r) = (-99, 98)` the floats give
`1.34 * -99 + 0.67 * 98 = -66.99999999999999`, so the code returns `y = 66`, while the
exact value `-67.0` truncates to `y = 67`. -/
theorem hex_center_coords_float_rounding_example :
    get_hex_center_coords (Coords.mk (-99) 98) = (294, 66) := by
  with_unfolding_all rfl

set_option maxRecDepth 100000 in
/-- C1 (counterexample): the spec says the projection rounds to the nearest integer, but
at `(q, r) = (0, 1)` the code computes `-int(0.67) = 0` while `-round(0.67) = -1`. -/
theorem hex_center_coords_round_counterexample :
    get_hex_center_coords (Coords.mk 0 1) ≠ hexCenterOffsetSpec (Coords.mk 0 1) := by
  have h1 : get_hex_center_coords (Coords.mk 0 1) = (3, 0) := by with_unfolding_all rfl
  have h2 : hexCenterOffsetSpec (Coords.mk 0 1) = (3, -1) := by with_unfolding_all rfl
  rw [h1, h2]
  decide

set_option maxRecDepth 100000 in
set_option maxHeartbeats 8000000 in
/-- C1 (amended): for every hex coordinate with `|q| ≤ 11` and `|r| ≤ 8` — a region
containing every hex whose 3-row glyph block lies inside the fixed 20 × 55 canvas
(column `24 + 3r` with block width 7 forces `|r| ≤ 8`, row `9 + y` the matching `q`
range) — the projection returns exactly `(3r, -((134q + 67r) tdiv 100))`: `y` negates
the TRUNCATION toward zero of `1.34q + 0.67r` (Python `int(...)`), not its rounding to
the nearest integer.  Neither the rounding nor an unrestricted formula survives: at
`(0, 1)` the code gives `y = 0` where round-to-nearest demands `-1`, and far outside
the canvas the accumulated binary64 rounding leaves the exact formula, e.g. `y = 66`
instead of `67` at `(-99, 98)`. -/
theorem hex_center_coords_formula :
    ∀ q ∈ Finset.Icc (-11 : ℤ) 11, ∀ r ∈ Finset.Icc (-8 : ℤ) 8,
      get_hex_center_coords (Coords.mk q r) =
        (3 * r, -((134 * q + 67 * r).tdiv 100)) := by
  with_unfolding_all decide

/-- Witness for C1 (amended): at `(q, r) = (2, -1)` the formula gives the projection
`(-3, -2)`. -/
theorem hex_center_coords_formula_witness :
    get_hex_center_coords (Coords.mk 2 (-1)) =
      (3 * (-1), -((134 * 2 + 67 * (-1)).tdiv 100)) :=
  hex_center_coords_formula 2 (by decide) (-1) (by decide)

/-! ## Shared color state across default-constructed renderers (C2) -/

/-- C2 (refutation): the color state is NOT scoped to one renderer instance.  Two
renderers constructed with default arguments alias the same default-argument dict
(created once at function-definition time) and the same class-attribute palette list, so
after the first renderer assigns player 0 a color, the second renderer's player color
map already contains player 0 and its remaining palette has lost the first color. -/
theorem default_renderers_share_color_state :
    heapDict (mkRendererDefault (mkRendererDefault moduleHeap).2).2
        (mkRendererDefault (mkRendererDefault moduleHeap).2).1.player_color_map_ref = [] ∧
    heapList (mkRendererDefault (mkRendererDefault moduleHeap).2).2
        (mkRendererDefault (mkRendererDefault moduleHeap).2).1.unused_player_colors_ref =
      DEFAULT_PLAYER_COLORS ∧
    get_player_color_obj (mkRendererDefault moduleHeap).1 0
        (mkRendererDefault (mkRendererDefault moduleHeap).2).2 =
      some ("#00c40d",
        PyHeap.mk [ [ (0, "#00c40d") ] ] [ [ "#ff00d9", "#0000FF", "#00FFFF" ] ]) ∧
    heapDict (PyHeap.mk [ [ (0, "#00c40d") ] ] [ [ "#ff00d9", "#0000FF", "#00FFFF" ] ])
        (mkRendererDefault (mkRendererDefault moduleHeap).2).1.player_color_map_ref =
      [ (0, "#00c40d") ] ∧
    heapList (PyHeap.mk [ [ (0, "#00c40d") ] ] [ [ "#ff00d9", "#0000FF", "#00FFFF" ] ])
        (mkRendererDefault (mkRendererDefault moduleHeap).2).1.unused_player_colors_ref =
      [ "#ff00d9", "#0000FF", "#00FFFF" ] := by
  decide

/-! ## Edge, corner and center glyphs (C5, C6, C7, C10) -/

/-- C5: an edge whose coordinate pair is in the board's harbor set renders with black
foreground on the unowned (desert) background when unbuilt, and in the road owner's
player color when built — the owned case takes precedence over the harbor case. -/
theorem harbor_edge_rendering (cfg : Config) (b : Board) (chars : List String)
    (path : Path) (s : RState) (hh : path.path_coords ∈ b.harbors.map Prod.fst) :
    (path.building = none →
      get_path cfg b chars path s =
        some (chars.map (fun x =>
          stylize x (some "#000000") (some (cfg.hex_color_map HexType.DESERT))), s)) ∧
    (∀ bl c s', path.building = some bl → get_player_color bl.owner s = some (c, s') →
      get_path cfg b chars path s =
        some (chars.map (fun x =>
          stylize x (some c) (some (cfg.hex_color_map HexType.DESERT))), s')) := by
  constructor
  · intro hb
    unfold get_path
    rw [hb]
    simp [mpure, hh]
  · intro bl c s' hb hg
    unfold get_path
    rw [hb]
    simp [mbind, hg, mpure]

/-- Witness for C5: the demonstration board's harbor edge renders black-on-desert when
unbuilt, and in player 0's freshly assigned color when it carries a road. -/
theorem harbor_edge_rendering_witness :
    get_path defaultConfig demoBoard [ "-", "-" ]
        (Path.mk (edgeKey (Coords.mk 1 (-1)) (Coords.mk 1 0)) none) fresh =
      some ([ stylize "-" (some "#000000") (some "#ffe5a3"),
              stylize "-" (some "#000000") (some "#ffe5a3") ], fresh) ∧
    get_path defaultConfig demoBoard [ "-", "-" ]
        (Path.mk (edgeKey (Coords.mk 1 (-1)) (Coords.mk 1 0))
          (some (EdgeBuilding.mk 0 BuildingType.ROAD
            (edgeKey (Coords.mk 1 (-1)) (Coords.mk 1 0))))) fresh =
      some ([ stylize "-" (some "#00c40d") (some "#ffe5a3"),
              stylize "-" (some "#00c40d") (some "#ffe5a3") ],
        RState.mk [ (0, "#00c40d") ] [ "#ff00d9", "#0000FF", "#00FFFF" ]) := by
  constructor
  · exact (harbor_edge_rendering defaultConfig demoBoard [ "-", "-" ]
      (Path.mk (edgeKey (Coords.mk 1 (-1)) (Coords.mk 1 0)) none) fresh (by decide)).1 rfl
  · exact (harbor_edge_rendering defaultConfig demoBoard [ "-", "-" ]
      (Path.mk (edgeKey (Coords.mk 1 (-1)) (Coords.mk 1 0))
        (some (EdgeBuilding.mk 0 BuildingType.ROAD
          (edgeKey (Coords.mk 1 (-1)) (Coords.mk 1 0))))) fresh (by decide)).2
      (EdgeBuilding.mk 0 BuildingType.ROAD (edgeKey (Coords.mk 1 (-1)) (Coords.mk 1 0)))
      "#00c40d" (RState.mk [ (0, "#00c40d") ] [ "#ff00d9", "#0000FF", "#00FFFF" ])
      rfl (by decide)

/-- C6: a production token of 6 or 8 renders in red text and any other token in black
text, both on a white background; a hex without a token renders five blank cells in the
hex's terrain color. -/
theorem token_rendering (cfg : Config) (h : Hex) :
    (∀ n, h.token_number = some n →
      get_hex_center cfg h =
        [ stylize " " none (some (cfg.hex_color_map h.hex_type)),
          (if n < 10 then stylize " " none (some (cfg.hex_color_map h.hex_type))
            else emptyStr),
          stylize (toString n)
            (some (if n = 6 ∨ n = 8 then "#FF0000" else "#000000")) (some "#FFFFFF"),
          stylize " " none (some (cfg.hex_color_map h.hex_type)),
          stylize " " none (some (cfg.hex_color_map h.hex_type)) ]) ∧
    (h.token_number = none →
      get_hex_center cfg h =
        List.replicate 5 (stylize " " none (some (cfg.hex_color_map h.hex_type)))) := by
  constructor
  · intro n hn
    simp only [get_hex_center, hn]
  · intro hn
    simp only [get_hex_center, hn]
    rfl

/-- Witness for C6: token 8 on a FIELDS hex renders "8" red-on-white between blanks;
a desert hex with no token renders five desert-colored blanks. -/
theorem token_rendering_witness :
    get_hex_center defaultConfig (Hex.mk HexType.FIELDS (some 8)) =
      [ stylize " " none (some "#ffea29"), stylize " " none (some "#ffea29"),
        stylize "8" (some "#FF0000") (some "#FFFFFF"),
        stylize " " none (some "#ffea29"), stylize " " none (some "#ffea29") ] ∧
    get_hex_center defaultConfig (Hex.mk HexType.DESERT none) =
      List.replicate 5 (stylize " " none (some "#ffe5a3")) := by
  constructor
  · exact ((token_rendering defaultConfig (Hex.mk HexType.FIELDS (some 8))).1 8 rfl).trans
      (by with_unfolding_all rfl)
  · exact ((token_rendering defaultConfig (Hex.mk HexType.DESERT none)).2 rfl).trans
      (by with_unfolding_all rfl)

/-- C7: an unbuilt corner renders the passed placeholder character in the unowned
colors; a SETTLEMENT renders "s" and a CITY renders "c", each in the owner's player
color on the unowned background. -/
theorem corner_rendering (cfg : Config) (char : String) (i : Intersection) (s : RState) :
    (i.building = none →
      get_intersection cfg char i s =
        some ([ stylize char (some "#9c7500") (some (cfg.hex_color_map HexType.DESERT)) ],
          s)) ∧
    (∀ bl c s', i.building = some bl → bl.building_type = BuildingType.SETTLEMENT →
      get_player_color bl.owner s = some (c, s') →
      get_intersection cfg char i s =
        some ([ stylize "s" (some c) (some (cfg.hex_color_map HexType.DESERT)) ], s')) ∧
    (∀ bl c s', i.building = some bl → bl.building_type = BuildingType.CITY →
      get_player_color bl.owner s = some (c, s') →
      get_intersection cfg char i s =
        some ([ stylize "c" (some c) (some (cfg.hex_color_map HexType.DESERT)) ], s')) := by
  refine ⟨?_, ?_, ?_⟩
  · intro hb
    unfold get_intersection
    rw [hb]
    rfl
  · intro bl c s' hb ht hg
    unfold get_intersection
    rw [hb]
    simp [mbind, hg, mpure, ht]
  · intro bl c s' hb ht hg
    unfold get_intersection
    rw [hb]
    simp [mbind, hg, mpure, ht]

/-- Witness for C7: on a fresh renderer, an empty corner keeps the "." placeholder in
unowned colors; player 0's settlement renders "s" and its city renders "c" in player
0's first-allocated color. -/
theorem corner_rendering_witness :
    get_intersection defaultConfig "." (Intersection.mk none) fresh =
      some ([ stylize "." (some "#9c7500") (some "#ffe5a3") ], fresh) ∧
    get_intersection defaultConfig "."
        (Intersection.mk
          (some (CornerBuilding.mk 0 BuildingType.SETTLEMENT (Coords.mk 1 (-1))))) fresh =
      some ([ stylize "s" (some "#00c40d") (some "#ffe5a3") ],
        RState.mk [ (0, "#00c40d") ] [ "#ff00d9", "#0000FF", "#00FFFF" ]) ∧
    get_intersection defaultConfig "."
        (Intersection.mk
          (some (CornerBuilding.mk 0 BuildingType.CITY (Coords.mk 1 (-1))))) fresh =
      some ([ stylize "c" (some "#00c40d") (some "#ffe5a3") ],
        RState.mk [ (0, "#00c40d") ] [ "#ff00d9", "#0000FF", "#00FFFF" ]) := by
  refine ⟨?_, ?_, ?_⟩
  · exact ((corner_rendering defaultConfig "." (Intersection.mk none) fresh).1 rfl).trans
      (by with_unfolding_all rfl)
  · exact ((corner_rendering defaultConfig "."
      (Intersection.mk
        (some (CornerBuilding.mk 0 BuildingType.SETTLEMENT (Coords.mk 1 (-1))))) fresh).2.1
      (CornerBuilding.mk 0 BuildingType.SETTLEMENT (Coords.mk 1 (-1))) "#00c40d"
      (RState.mk [ (0, "#00c40d") ] [ "#ff00d9", "#0000FF", "#00FFFF" ])
      rfl rfl (by decide)).trans (by with_unfolding_all rfl)
  · exact ((corner_rendering defaultConfig "."
      (Intersection.mk
        (some (CornerBuilding.mk 0 BuildingType.CITY (Coords.mk 1 (-1))))) fresh).2.2
      (CornerBuilding.mk 0 BuildingType.CITY (Coords.mk 1 (-1))) "#00c40d"
      (RState.mk [ (0, "#00c40d") ] [ "#ff00d9", "#0000FF", "#00FFFF" ])
      rfl rfl (by decide)).trans (by with_unfolding_all rfl)

/-- C10: the corner glyph branches only on SETTLEMENT versus everything else — any
building whose type is not SETTLEMENT, including an ill-typed ROAD stored at a corner,
renders as "c" in the owner's color. -/
theorem non_settlement_corner_renders_c (cfg : Config) (char : String)
    (i : Intersection) (s : RState) (bl : CornerBuilding) (c : Color) (s' : RState)
    (hb : i.building = some bl) (ht : bl.building_type ≠ BuildingType.SETTLEMENT)
    (hg : get_player_color bl.owner s = some (c, s')) :
    get_intersection cfg char i s =
      some ([ stylize "c" (some c) (some (cfg.hex_color_map HexType.DESERT)) ], s') := by
  unfold get_intersection
  rw [hb]
  simp [mbind, hg, mpure, if_neg ht]

/-- Witness for C10: a ROAD building stored at a corner silently renders as a city "c". -/
theorem non_settlement_corner_renders_c_witness :
    get_intersection defaultConfig "."
        (Intersection.mk (some (CornerBuilding.mk 0 BuildingType.ROAD (Coords.mk 1 (-1)))))
        fresh =
      some ([ stylize "c" (some "#00c40d") (some "#ffe5a3") ],
        RState.mk [ (0, "#00c40d") ] [ "#ff00d9", "#0000FF", "#00FFFF" ]) :=
  (non_settlement_corner_renders_c defaultConfig "."
    (Intersection.mk (some (CornerBuilding.mk 0 BuildingType.ROAD (Coords.mk 1 (-1)))))
    fresh (CornerBuilding.mk 0 BuildingType.ROAD (Coords.mk 1 (-1))) "#00c40d"
    (RState.mk [ (0, "#00c40d") ] [ "#ff00d9", "#0000FF", "#00FFFF" ])
    rfl (by decide) (by decide)).trans (by with_unfolding_all rfl)

/-! ## Roll-yield bookkeeping (C9) -/

/-- C9: `RollYieldSource.__init__` stores only `building` and `hex` and discards the
`resource` and `amount` arguments; `RollYield.add_yield` increases
`total_yield[resource]` by `amount`, leaves the other resources unchanged, and inserts
the class object `RollYieldSource` itself — not the `source` instance passed in — into
`all_yields`. -/
theorem roll_yield_bookkeeping :
    (∀ r1 r2 a1 a2 bl hx,
      RollYieldSource.init r1 a1 bl hx = RollYieldSource.init r2 a2 bl hx ∧
      (RollYieldSource.init r1 a1 bl hx).building = bl ∧
      (RollYieldSource.init r1 a1 bl hx).hex = hx) ∧
    (∀ (ry : RollYield) (res : Resource) (amt : Int) (src : RollYieldSource),
      (ry.add_yield res amt src).total_yield res = ry.total_yield res + amt ∧
      (∀ r, r ≠ res → (ry.add_yield res amt src).total_yield r = ry.total_yield r) ∧
      (ry.add_yield res amt src).all_yields = insert YieldElem.classObj ry.all_yields ∧
      (YieldElem.inst src ∈ (ry.add_yield res amt src).all_yields ↔
        YieldElem.inst src ∈ ry.all_yields)) := by
  constructor
  · intro r1 r2 a1 a2 bl hx
    exact ⟨rfl, rfl, rfl⟩
  · intro ry res amt src
    refine ⟨by simp [RollYield.add_yield], fun r hr => by simp [RollYield.add_yield, hr],
      rfl, ?_⟩
    simp [RollYield.add_yield, Finset.mem_insert]

/-- Witness for C9: the constructor discards GRAIN/3 versus ORE/7; one `add_yield` of
2 GRAIN on a fresh `RollYield` yields 2 GRAIN, 0 ORE, and an `all_yields` containing
only the class object, not the source instance. -/
theorem roll_yield_bookkeeping_witness :
    RollYieldSource.init Resource.GRAIN 3 demoYieldSource.building demoYieldSource.hex =
      RollYieldSource.init Resource.ORE 7 demoYieldSource.building demoYieldSource.hex ∧
    demoRollYield.total_yield Resource.GRAIN = 2 ∧
    demoRollYield.total_yield Resource.ORE = 0 ∧
    demoRollYield.all_yields = { YieldElem.classObj } ∧
    YieldElem.inst demoYieldSource ∉ demoRollYield.all_yields := by
  obtain ⟨hinit, -, -⟩ :=
    roll_yield_bookkeeping.1 Resource.GRAIN Resource.ORE 3 7
      demoYieldSource.building demoYieldSource.hex
  obtain ⟨ht, hother, hall, hmem⟩ :=
    roll_yield_bookkeeping.2 RollYield.init Resource.GRAIN 2 demoYieldSource
  refine ⟨hinit, ht.trans (by decide), (hother Resource.ORE (by decide)).trans rfl, ?_, ?_⟩
  · exact hall.trans (by simp [RollYield.init])
  · intro hin
    exact absurd (hmem.mp hin) (by simp [RollYield.init])

end PyCatan
